import Mathlib

/-!
Shallow embedding of the sponsors-app backend (FastAPI + SQLAlchemy) policy
layer: role/relationship authorization, relationship-integrity checks and
pagination, as implemented in `apps/backend/app/`.

Modelling conventions:
- database tables become lists of records held in a `DB` state, in
  insertion (primary-key) order; `query(...).filter(...).first()` becomes
  `List.find?` and `.all()` becomes `List.filter`;
- an endpoint becomes a function `DB → ... → Except HTTPError result`,
  where `HTTPError` carries the HTTP status code and detail string of the
  raised `HTTPException`;
- Python integers are `Nat` (ids, pages) or `Int` (amounts; no arithmetic
  beyond copying and summation occurs in the embedded code paths);
- Python truthiness of optional query parameters (`if sponsor_id:`) is
  modelled explicitly: `none` and `some 0` (resp. the empty string) are
  falsy;
- `datetime` values are opaque stamps with an optional timezone tag, so
  that `value.replace(tzinfo=timezone.utc)` is observable;
- the password-hashing primitive is an external collaborator (passlib);
  it is modelled as an injective tagging function.
-/

namespace SponsorsApp

/-- HTTP error as raised via `HTTPException(status_code=..., detail=...)`. -/
structure HTTPError where
  statusCode : Nat
  detail : String
deriving Repr, DecidableEq

/-- Python `datetime`: an opaque stamp plus an optional timezone tag. -/
structure PyDateTime where
  stamp : Int
  tz : Option String
deriving Repr, DecidableEq

/-- Models `value.replace(tzinfo=timezone.utc)`. -/
def replaceTzUtc (d : PyDateTime) : PyDateTime :=
  { d with tz := some "UTC" }

/-- Row of the `users` table (`models/user_model.py`). Roles and genders are
the string values of the `UserRole` and `Gender` enums. Dates are opaque
day counts. -/
structure User where
  id : Nat
  first_name : String
  last_name : String
  role : String
  username : String
  hashed_password : String
  email : Option String
  phone_number : Option String
  date_of_birth : Option Nat
  gender : Option String
  background_info : Option String
  profile_image : Option String
  image_gallery : Option (List String)
  is_active : Bool
deriving Repr, DecidableEq

/-- Row of the `sponsorships` table (`models/sponsorship_model.py`). -/
structure Sponsorship where
  id : Nat
  sponsor_id : Nat
  child_id : Nat
  start_date : Nat
  status : String
deriving Repr, DecidableEq

/-- Row of the `payments` table (`models/payment_model.py`). -/
structure Payment where
  id : Nat
  sponsor_id : Nat
  child_id : Nat
  amount : Int
  currency : String
  transaction_id : String
  payment_method : String
  status : String
  payment_date : PyDateTime
deriving Repr, DecidableEq

/-- Row of the `child_reports` table (`models/child_report_model.py`). -/
structure ChildReport where
  id : Nat
  child_id : Nat
  report_date : Nat
  report_type : String
  details : String
  status : String
deriving Repr, DecidableEq

/-- The relational store: the four tables, rows in insertion order. -/
structure DB where
  users : List User
  sponsorships : List Sponsorship
  payments : List Payment
  reports : List ChildReport
deriving Repr, DecidableEq

/-- helpers.py `is_admin`: `user.role == UserRole.ADMIN.value`. -/
def is_admin (user : User) : Bool :=
  user.role == "admin"

/-- helpers.py `get_user_or_404`: first user with the given id, else a 404
with the caller-supplied detail message. -/
def get_user_or_404 (db : DB) (user_id : Nat) (detail : String) :
    Except HTTPError User :=
  match db.users.find? (fun u => u.id == user_id) with
  | some u => .ok u
  | none => .error ⟨404, detail⟩

/-- The SQLAlchemy relationship `User.sponsorships_as_child`: all
sponsorship rows whose `child_id` is this user, in table order. -/
def sponsorships_as_child (db : DB) (cid : Nat) : List Sponsorship :=
  db.sponsorships.filter (fun s => s.child_id == cid)

/-- The SQLAlchemy relationship `User.sponsorships_as_sponsor`. -/
def sponsorships_as_sponsor (db : DB) (sid : Nat) : List Sponsorship :=
  db.sponsorships.filter (fun s => s.sponsor_id == sid)

/-- Autoincrement primary key: one more than the largest id in use. -/
def nextId (ids : List Nat) : Nat :=
  ids.foldr max 0 + 1

/-- Python truthiness of an optional integer parameter: `None` and `0` are
falsy. -/
def truthyNat : Option Nat → Bool
  | none => false
  | some n => n != 0

/-- Python truthiness of an optional string: `None` and `""` are falsy. -/
def truthyStr : Option String → Bool
  | none => false
  | some s => s != ""

/-- Result shape of helpers.py `paginate_query`. -/
structure Paginated (α : Type) where
  results : List α
  total_count : Nat
  total_pages : Nat
deriving Repr, DecidableEq

/-- helpers.py `paginate_query`: `total_count = query.count()`,
`total_pages = (total_count + page_size - 1) // page_size`, and
`results = query.offset((page - 1) * page_size).limit(page_size).all()`. -/
def paginate_query (rows : List α) (page page_size : Nat) : Paginated α :=
  let total_count := rows.length
  let total_pages := (total_count + page_size - 1) / page_size
  let results := (rows.drop ((page - 1) * page_size)).take page_size
  ⟨results, total_count, total_pages⟩

/-- Pydantic `PaymentCreate` (`schemas/payment_schema.py`): all fields
required except `payment_date`. -/
structure PaymentCreate where
  sponsor_id : Nat
  child_id : Nat
  amount : Int
  currency : String
  transaction_id : String
  payment_method : String
  status : String
  payment_date : Option PyDateTime
deriving Repr, DecidableEq

/-- Pydantic `PaymentUpdate`: every field optional (partial update). -/
structure PaymentUpdate where
  amount : Option Int
  currency : Option String
  transaction_id : Option String
  payment_method : Option String
  status : Option String
  payment_date : Option PyDateTime
deriving Repr, DecidableEq

/-- Pydantic `SponsorshipBase` (`schemas/sponsorship_schema.py`). -/
structure SponsorshipBase where
  sponsor_id : Nat
  child_id : Nat
  start_date : Nat
  status : String
deriving Repr, DecidableEq

/-- Pydantic `ChildReportUpdate`: every field optional (partial update). -/
structure ChildReportUpdate where
  report_date : Option Nat
  report_type : Option String
  details : Option String
  status : Option String
deriving Repr, DecidableEq

/-- Pydantic `UserCreate` (`schemas/user_schema.py`): `first_name`,
`last_name`, `role`, `username`, `password` required; the rest optional
(`is_active` defaults to `True` but may be sent as `null`). -/
structure UserCreate where
  first_name : String
  last_name : String
  role : String
  is_active : Option Bool
  username : String
  password : String
  email : Option String
  phone_number : Option String
  date_of_birth : Option Nat
  gender : Option String
  background_info : Option String
deriving Repr, DecidableEq

/-- Models the external password primitive (`core/security.py`
`hash_password`, a passlib bcrypt wrapper) as an injective tag. -/
def hash_password (password : String) : String :=
  "bcrypt:" ++ password

/-- Special characters accepted by the password pattern in
`api/users.py` (the character class
`[!@#$%^&*()_+={}\[\]:;"'<>.,?/~`\\|-]`), given by character codes. -/
def special_chars : List Char :=
  [33, 64, 35, 36, 37, 94, 38, 42, 40, 41, 95, 43, 61, 123, 125, 91, 93,
   58, 59, 34, 39, 60, 62, 46, 44, 63, 47, 126, 96, 92, 124, 45].map Char.ofNat

/-- The password pattern of `create_user`:
`^(?=.*[a-z])(?=.*[A-Z])(?=.*\d)(?=.*[<specials>])[^\s]{8,64}$`. -/
def password_ok (password : String) : Bool :=
  let cs := password.toList
  cs.any (fun c => c.isLower) && cs.any (fun c => c.isUpper) &&
  cs.any (fun c => c.isDigit) && cs.any (fun c => special_chars.contains c) &&
  cs.all (fun c => !c.isWhitespace) && decide (8 ≤ cs.length) &&
  decide (cs.length ≤ 64)

/-- The row built by `Payment(**payment_data.model_dump())`: a fresh
autoincremented id, the payload's fields, and the column default (current
UTC time, the `now` argument) when `payment_date` is absent. -/
def new_payment_of (db : DB) (payment_data : PaymentCreate)
    (now : PyDateTime) : Payment :=
  { id := nextId (db.payments.map (fun p => p.id)),
    sponsor_id := payment_data.sponsor_id,
    child_id := payment_data.child_id,
    amount := payment_data.amount,
    currency := payment_data.currency,
    transaction_id := payment_data.transaction_id,
    payment_method := payment_data.payment_method,
    status := payment_data.status,
    payment_date :=
      match payment_data.payment_date with
      | some d => d
      | none => now }

/-- api/payments.py `create_payment`. `now` stands for the UTC timestamp
the `payment_date` column defaults to when the request omits it. -/
def create_payment (db : DB) (logged_in_user_id : Nat)
    (payment_data : PaymentCreate) (now : PyDateTime) :
    Except HTTPError (DB × Payment) :=
  match get_user_or_404 db logged_in_user_id ("User not found") with
  | .error e => .error e
  | .ok user =>
    -- Ensure only an admin or the actual sponsor can create a payment
    if ¬ is_admin user ∧ user.id ≠ payment_data.sponsor_id then
      .error ⟨403, "You do not have permission to create this payment."⟩
    else
      -- Validate if the sponsor exists and has the correct role
      match db.users.find? (fun u =>
          u.id == payment_data.sponsor_id && u.role == "sponsor") with
      | none => .error ⟨404, "Sponsor not found"⟩
      | some _ =>
        -- Validate if the child exists and has the correct role
        match db.users.find? (fun u =>
            u.id == payment_data.child_id && u.role == "child") with
        | none => .error ⟨404, "Child not found"⟩
        | some _ =>
          -- Check if there is an active sponsorship between them
          match db.sponsorships.find? (fun s =>
              s.sponsor_id == payment_data.sponsor_id &&
              s.child_id == payment_data.child_id &&
              s.status == "active") with
          | none =>
            .error ⟨400, "No active sponsorship found between the sponsor and child. Create sponsorship first."⟩
          | some _ =>
            -- Ensure the transaction ID is unique
            match db.payments.find? (fun p =>
                p.transaction_id == payment_data.transaction_id) with
            | some _ => .error ⟨400, "Transaction ID already exists"⟩
            | none =>
              let new_payment := new_payment_of db payment_data now
              .ok ({ db with payments := db.payments ++ [new_payment] },
                   new_payment)

/-- Response shape of the paginated payment listings. -/
structure PaymentsListResult where
  page : Nat
  page_size : Nat
  total_payments : Nat
  total_pages : Nat
  payments : List Payment
deriving Repr, DecidableEq

/-- api/payments.py `get_payments`, with Python truthiness of the two
optional filters (`if sponsor_id:` / `if child_id:`) made explicit. -/
def get_payments (db : DB) (logged_in_user_id : Nat)
    (sponsor_id child_id : Option Nat) (page page_size : Nat) :
    Except HTTPError PaymentsListResult :=
  match get_user_or_404 db logged_in_user_id ("User not found") with
  | .error e => .error e
  | .ok user =>
    -- Ensure that at least one filter is provided
    if sponsor_id = none ∧ child_id = none then
      .error ⟨400, "Either 'sponsor_id' or 'child_id' must be provided."⟩
    else
      -- If filtering by sponsor
      let step1 : Except HTTPError (List Payment) :=
        if truthyNat sponsor_id then
          let sid := sponsor_id.getD 0
          match db.users.find? (fun u =>
              u.id == sid && u.role == "sponsor") with
          | none => .error ⟨404, "Sponsor not found"⟩
          | some _ =>
            if ¬ is_admin user ∧ user.id ≠ sid then
              .error ⟨403, "You do not have permission to access this resource."⟩
            else
              .ok (db.payments.filter (fun p => p.sponsor_id == sid))
        else .ok db.payments
      match step1 with
      | .error e => .error e
      | .ok query1 =>
        -- If filtering by child
        let step2 : Except HTTPError (List Payment) :=
          if truthyNat child_id then
            let cid := child_id.getD 0
            match db.users.find? (fun u =>
                u.id == cid && u.role == "child") with
            | none => .error ⟨404, "Child not found"⟩
            | some child =>
              -- All sponsors linked to the child through sponsorship rows
              let sponsor_ids :=
                (sponsorships_as_child db child.id).map (fun s => s.sponsor_id)
              if ¬ is_admin user ∧ user.id ∉ sponsor_ids then
                .error ⟨403, "You do not have permission to access this resource."⟩
              else if truthyNat sponsor_id then
                let sid := sponsor_id.getD 0
                match db.sponsorships.find? (fun s =>
                    s.sponsor_id == sid && s.child_id == cid) with
                | none =>
                  .error ⟨400, "No sponsorship relationship exists between the sponsor and child."⟩
                | some _ =>
                  .ok (query1.filter (fun p =>
                    p.sponsor_id == sid && p.child_id == cid))
              else
                .ok (query1.filter (fun p => p.child_id == cid))
          else .ok query1
        match step2 with
        | .error e => .error e
        | .ok query2 =>
          let pagination := paginate_query query2 page page_size
          if pagination.results.isEmpty then
            .error ⟨404, "No payments found"⟩
          else
            .ok ⟨page, page_size, pagination.total_count,
                 pagination.total_pages, pagination.results⟩

/-- The dynamic field loop of `update_payment`: copy each non-null field
of the patch onto the payment; `payment_date` gets
`value.replace(tzinfo=timezone.utc)`. -/
def apply_payment_update (payment : Payment) (d : PaymentUpdate) : Payment :=
  let p := match d.amount with
    | some v => { payment with amount := v }
    | none => payment
  let p := match d.currency with
    | some v => { p with currency := v }
    | none => p
  let p := match d.transaction_id with
    | some v => { p with transaction_id := v }
    | none => p
  let p := match d.payment_method with
    | some v => { p with payment_method := v }
    | none => p
  let p := match d.status with
    | some v => { p with status := v }
    | none => p
  match d.payment_date with
  | some v => { p with payment_date := replaceTzUtc v }
  | none => p

/-- api/payments.py `update_payment`. The duplicate-transaction check only
runs under `if payment_data.transaction_id:` — Python truthiness, so it is
skipped for `None` and for the empty string. Because the
`payments.transaction_id` column is declared `unique=True`
(`models/payment_model.py`), an update that slips past the application
check but still collides with a different row raises an unhandled
integrity error at `db.commit()`; that commit-time constraint is the
final `if`. -/
def update_payment (db : DB) (logged_in_user_id : Nat)
    (payment_data : PaymentUpdate) (payment_id : Nat) :
    Except HTTPError (DB × Payment) :=
  match get_user_or_404 db logged_in_user_id ("User not found") with
  | .error e => .error e
  | .ok user =>
    -- Ensure only admins can update payments
    if ¬ is_admin user then
      .error ⟨403, "You do not have permission to update payment details."⟩
    else
      match db.payments.find? (fun p => p.id == payment_id) with
      | none =>
        .error ⟨404, "Payment with ID " ++ toString payment_id ++ " not found"⟩
      | some payment =>
        -- Check if the new transaction ID already exists
        if truthyStr payment_data.transaction_id ∧
            (db.payments.find? (fun p =>
              p.transaction_id == (payment_data.transaction_id.getD p.transaction_id) &&
              p.id != payment_id)).isSome then
          .error ⟨400, "Transaction ID already exists"⟩
        else
          let updated := apply_payment_update payment payment_data
          if db.payments.any (fun p =>
              p.id != payment_id && p.transaction_id == updated.transaction_id) then
            .error ⟨500, "IntegrityError: UNIQUE constraint failed: payments.transaction_id"⟩
          else
            .ok ({ db with payments := db.payments.map (fun p =>
                     if p.id == payment_id then updated else p) },
                 updated)

/-- api/sponsorships.py `create_sponsorship`. The child reference is
checked for existence only (`get_user_or_404`, no role filter); the
sponsor reference is checked for existence with role `sponsor`; the
duplicate check ignores the status of the existing row. -/
def create_sponsorship (db : DB) (logged_in_user_id : Nat)
    (sponsorship_data : SponsorshipBase) :
    Except HTTPError (DB × Sponsorship) :=
  match get_user_or_404 db logged_in_user_id ("User not found") with
  | .error e => .error e
  | .ok user =>
    if ¬ is_admin user then
      .error ⟨403, "You do not have permission to perform this action"⟩
    else
      match get_user_or_404 db sponsorship_data.child_id ("Child not found") with
      | .error e => .error e
      | .ok _ =>
        match db.users.find? (fun u =>
            u.id == sponsorship_data.sponsor_id && u.role == "sponsor") with
        | none => .error ⟨404, "Sponsor not found"⟩
        | some _ =>
          match db.sponsorships.find? (fun s =>
              s.child_id == sponsorship_data.child_id &&
              s.sponsor_id == sponsorship_data.sponsor_id) with
          | some _ =>
            .error ⟨400, "Child already sponsored by this sponsor"⟩
          | none =>
            let sponsorship : Sponsorship :=
              { id := nextId (db.sponsorships.map (fun s => s.id)),
                sponsor_id := sponsorship_data.sponsor_id,
                child_id := sponsorship_data.child_id,
                start_date := sponsorship_data.start_date,
                status := sponsorship_data.status }
            .ok ({ db with sponsorships := db.sponsorships ++ [sponsorship] },
                 sponsorship)

/-- The `sponsorship_details` block of the child-details response. -/
structure SponsorshipDetails where
  status : String
  start_date : Nat
deriving Repr, DecidableEq

/-- Response of `get_child_details`, with the cosmetic formatting (age
computation, name concatenation, ISO dates) elided; the child identity,
the sponsorship block, the payment history with its total and the report
list are kept. -/
structure ChildDetails where
  child_id : Nat
  sponsorship_details : Option SponsorshipDetails
  total_contributed : Int
  payments : List Payment
  child_reports : List ChildReport
deriving Repr, DecidableEq

/-- api/sponsors.py `get_child_details`. The authorization step fetches
the FIRST sponsorship row of the child (`.filter(child_id == id).first()`)
and compares that row's `sponsor_id` with the caller. After authorization
the endpoint dereferences `child.date_of_birth.year` (the age
computation) and, while building the response, `child.gender.value`,
both unconditionally: a child row with a NULL value in either column
makes the request crash with an AttributeError — an unhandled 500 — in
that source order, for every caller. -/
def get_child_details (db : DB) (logged_in_user_id : Nat) (id : Nat) :
    Except HTTPError ChildDetails :=
  match get_user_or_404 db logged_in_user_id ("User not found") with
  | .error e => .error e
  | .ok user =>
    match db.users.find? (fun u => u.id == id && u.role == "child") with
    | none => .error ⟨404, "Child not found"⟩
    | some child =>
      let sponsorship := db.sponsorships.find? (fun s => s.child_id == id)
      let denied := !(is_admin user) &&
        (match sponsorship with
         | none => true
         | some s => s.sponsor_id != user.id)
      if denied then
        .error ⟨403, "Access denied"⟩
      else
        match child.date_of_birth with
        | none => .error ⟨500, "AttributeError: date_of_birth is None"⟩
        | some _ =>
          let payments := db.payments.filter (fun p => p.child_id == id)
          let total_amount := (payments.map (fun p => p.amount)).sum
          let reports := db.reports.filter (fun r => r.child_id == id)
          match child.gender with
          | none => .error ⟨500, "AttributeError: gender is None"⟩
          | some _ =>
            .ok { child_id := child.id,
                  sponsorship_details :=
                    sponsorship.map (fun s => ⟨s.status, s.start_date⟩),
                  total_contributed := total_amount,
                  payments := payments,
                  child_reports := reports }

/-- api/users.py `create_user`. The duplicate check is
`(User.username == data.username) | (User.email == data.email)`; under
SQLAlchemy a `None` email renders as `email IS NULL`. A `None`
`is_active` lets the column default `True` apply. -/
def create_user (db : DB) (logged_in_user_id : Nat) (user_data : UserCreate) :
    Except HTTPError (DB × User) :=
  match get_user_or_404 db logged_in_user_id ("User not found") with
  | .error e => .error e
  | .ok user =>
    -- Ensure only an Admin can create new users
    if ¬ is_admin user then
      .error ⟨403, "You do not have permission to perform this action"⟩
    else
      match db.users.find? (fun u =>
          u.username == user_data.username ||
          (match user_data.email with
           | none => u.email == none
           | some e => u.email == some e)) with
      | some _ => .error ⟨400, "Email or username already registered"⟩
      | none =>
        if ¬ password_ok user_data.password then
          .error ⟨400, "Password must be 8-64 chars long, contain 1 uppercase, 1 lowercase, 1 digit, 1 special character, and no spaces."⟩
        else
          let created : User :=
            { id := nextId (db.users.map (fun u => u.id)),
              first_name := user_data.first_name,
              last_name := user_data.last_name,
              role := user_data.role,
              username := user_data.username,
              hashed_password := hash_password user_data.password,
              email := user_data.email,
              phone_number := user_data.phone_number,
              date_of_birth := user_data.date_of_birth,
              gender := user_data.gender,
              background_info := user_data.background_info,
              profile_image := none,
              image_gallery := none,
              is_active :=
                match user_data.is_active with
                | some b => b
                | none => true }
          .ok ({ db with users := db.users ++ [created] }, created)

/-- The `vars()`-driven field loop of `update_user`: every non-null field
of the `UserCreate` payload is copied onto the stored user, with
`password` mapped to `hashed_password`. The five required fields are
always applied. -/
def apply_user_update (u : User) (d : UserCreate) : User :=
  let u := { u with first_name := d.first_name }
  let u := { u with last_name := d.last_name }
  let u := { u with role := d.role }
  let u := match d.is_active with
    | some v => { u with is_active := v }
    | none => u
  let u := { u with username := d.username }
  let u := { u with hashed_password := hash_password d.password }
  let u := match d.email with
    | some v => { u with email := some v }
    | none => u
  let u := match d.phone_number with
    | some v => { u with phone_number := some v }
    | none => u
  let u := match d.date_of_birth with
    | some v => { u with date_of_birth := some v }
    | none => u
  let u := match d.gender with
    | some v => { u with gender := some v }
    | none => u
  match d.background_info with
  | some v => { u with background_info := some v }
  | none => u

/-- api/users.py `update_user`. After fetching the logged-in user the
source only has the dead guard `if not user:` (unreachable, because
`get_user_or_404` already raised); NO admin check is performed before the
target user is patched. -/
def update_user (db : DB) (logged_in_user_id : Nat) (user_data : UserCreate)
    (user_id : Nat) : Except HTTPError DB :=
  match get_user_or_404 db logged_in_user_id ("User not found") with
  | .error e => .error e
  | .ok _user =>
    match get_user_or_404 db user_id ("User to update not found") with
    | .error e => .error e
    | .ok user_update =>
      let updated := apply_user_update user_update user_data
      .ok { db with users := db.users.map (fun u =>
              if u.id == user_id then updated else u) }

/-- The field loop of `update_child_report`: copy each non-null field. -/
def apply_report_update (r : ChildReport) (d : ChildReportUpdate) :
    ChildReport :=
  let r := match d.report_date with
    | some v => { r with report_date := v }
    | none => r
  let r := match d.report_type with
    | some v => { r with report_type := v }
    | none => r
  let r := match d.details with
    | some v => { r with details := v }
    | none => r
  match d.status with
  | some v => { r with status := v }
  | none => r

/-- api/child_reports.py `update_child_report`. The body may be absent
(`report_data = None`); `getattr(report_data, field, None)` then yields
`None` for every field and nothing changes. -/
def update_child_report (db : DB) (logged_in_user_id : Nat)
    (report_data : Option ChildReportUpdate) (report_id : Nat) :
    Except HTTPError (DB × ChildReport) :=
  match get_user_or_404 db logged_in_user_id ("User not found") with
  | .error e => .error e
  | .ok user =>
    -- Ensure only Admins can update reports
    if ¬ is_admin user then
      .error ⟨403, "You do not have permission to update reports."⟩
    else
      match db.reports.find? (fun r => r.id == report_id) with
      | none => .error ⟨404, "Report not found."⟩
      | some report =>
        let updated := match report_data with
          | none => report
          | some d => apply_report_update report d
        .ok ({ db with reports := db.reports.map (fun r =>
                 if r.id == report_id then updated else r) },
             updated)

/-- api/child_reports.py `mark_report_as_read`: admins, and sponsors
linked to the report's child by any sponsorship row, may set the report
status to `"read"`. -/
def mark_report_as_read (db : DB) (report_id : Nat)
    (logged_in_user_id : Nat) : Except HTTPError (DB × ChildReport) :=
  match get_user_or_404 db logged_in_user_id ("User not found") with
  | .error e => .error e
  | .ok user =>
    match db.reports.find? (fun r => r.id == report_id) with
    | none => .error ⟨404, "Report not found."⟩
    | some report =>
      match db.users.find? (fun u =>
          u.id == report.child_id && u.role == "child") with
      | none => .error ⟨404, "Associated child not found."⟩
      | some child =>
        if ¬ is_admin user ∧
            user.id ∉ (sponsorships_as_child db child.id).map
              (fun s => s.sponsor_id) then
          .error ⟨403, "You do not have permission to mark this report as read."⟩
        else
          let updated := { report with status := "read" }
          .ok ({ db with reports := db.reports.map (fun r =>
                   if r.id == report_id then updated else r) },
               updated)

/-- Checks whether an endpoint call succeeded. -/
def isOk : Except HTTPError α → Bool
  | .ok _ => true
  | .error _ => false

/-- Ceiling division recovers at least the numerator:
`n ≤ ((n + s - 1) / s) * s` for positive `s`. -/
lemma le_ceil_div_mul (n s : Nat) (hs : 0 < s) :
    n ≤ ((n + s - 1) / s) * s := by
  have hdm := Nat.div_add_mod (n + s - 1) s
  have hmod : (n + s - 1) % s < s := Nat.mod_lt _ hs
  rw [Nat.mul_comm] at hdm
  omega

/-- C1: For every result sequence with `total_count ≥ 0` and every
`page_size ∈ [1,100]`, `paginate_query` returns
`total_pages = (total_count + page_size - 1) / page_size` (hence `0` when
`total_count = 0`), and for every `page > total_pages` it returns an empty
result list together with the unchanged `total_count` and `total_pages`,
not an error. -/
theorem paginate_query_ceiling_and_overflow (α : Type) (rows : List α)
    (page page_size : Nat) (hps1 : 1 ≤ page_size) (hps2 : page_size ≤ 100)
    (hp : 1 ≤ page) :
    (paginate_query rows page page_size).total_pages
      = (rows.length + page_size - 1) / page_size
    ∧ (rows.length = 0 → (paginate_query rows page page_size).total_pages = 0)
    ∧ (page > (paginate_query rows page page_size).total_pages →
        (paginate_query rows page page_size).results = []
        ∧ (paginate_query rows page page_size).total_count = rows.length
        ∧ (paginate_query rows page page_size).total_pages
            = (rows.length + page_size - 1) / page_size) := by
  refine ⟨rfl, ?_, ?_⟩
  · intro h0
    show (rows.length + page_size - 1) / page_size = 0
    rw [h0]
    exact Nat.div_eq_of_lt (by omega)
  · intro hover
    have hover' : (rows.length + page_size - 1) / page_size < page := hover
    refine ⟨?_, rfl, rfl⟩
    show (rows.drop ((page - 1) * page_size)).take page_size = []
    have hlen : rows.length ≤ (page - 1) * page_size := by
      have hceil : rows.length
          ≤ ((rows.length + page_size - 1) / page_size) * page_size :=
        le_ceil_div_mul rows.length page_size (by omega)
      have hstep : (rows.length + page_size - 1) / page_size ≤ page - 1 := by
        omega
      exact Nat.le_trans hceil (Nat.mul_le_mul_right _ hstep)
    rw [List.drop_eq_nil_of_le hlen, List.take_nil]

/-- Witness for C1 at `rows = [0,1,2]`, `page = 5`, `page_size = 2`. -/
theorem paginate_query_ceiling_and_overflow_witness :
    (paginate_query [0, 1, 2] 5 2).total_pages = ([0, 1, 2].length + 2 - 1) / 2
    ∧ ([0, 1, 2].length = 0 → (paginate_query [0, 1, 2] 5 2).total_pages = 0)
    ∧ (5 > (paginate_query [0, 1, 2] 5 2).total_pages →
        (paginate_query [0, 1, 2] 5 2).results = []
        ∧ (paginate_query [0, 1, 2] 5 2).total_count = [0, 1, 2].length
        ∧ (paginate_query [0, 1, 2] 5 2).total_pages
            = ([0, 1, 2].length + 2 - 1) / 2) :=
  paginate_query_ceiling_and_overflow Nat [0, 1, 2] 5 2
    (by decide) (by decide) (by decide)

/-- Sample user with defaulted profile fields. -/
def mkUser (id : Nat) (role : String) : User :=
  { id := id, first_name := "F", last_name := "L", role := role,
    username := "u" ++ toString id, hashed_password := "h", email := none,
    phone_number := none, date_of_birth := none, gender := none,
    background_info := none, profile_image := none, image_gallery := none,
    is_active := true }

/-- Sample child with the child-specific columns populated, as the user
schema intends for children. -/
def mkChild (id : Nat) : User :=
  { mkUser id ("child") with
    date_of_birth := some 7300, gender := some "Male" }

/-- Sample store: an admin (1), two sponsors (2, 3), two children (4, 5)
with populated child fields; both sponsors are linked to child 4 by active
sponsorships (rows in that order), sponsor 2 has a canceled sponsorship of
child 5; sponsor 3 has a payment for child 4, sponsor 2 likewise; one
unread report on child 4. -/
def dbMain : DB :=
  { users := [mkUser 1 ("admin"), mkUser 2 ("sponsor"), mkUser 3 ("sponsor"),
              mkChild 4, mkChild 5],
    sponsorships := [⟨1, 2, 4, 100, "active"⟩, ⟨2, 3, 4, 100, "active"⟩,
                     ⟨3, 2, 5, 100, "canceled"⟩],
    payments := [⟨1, 3, 4, 50, "KSh", "TXB", "Mpesa", "completed", ⟨0, none⟩⟩,
                 ⟨2, 2, 4, 60, "KSh", "TXA", "Mpesa", "completed", ⟨0, none⟩⟩],
    reports := [⟨1, 4, 10, "Academic", "good progress", "unread"⟩] }

/-- Payment of sponsor 3 for child 4 in the sample store. -/
def payTXB : Payment :=
  ⟨1, 3, 4, 50, "KSh", "TXB", "Mpesa", "completed", ⟨0, none⟩⟩

/-- Payment of sponsor 2 for child 4 in the sample store. -/
def payTXA : Payment :=
  ⟨2, 2, 4, 60, "KSh", "TXA", "Mpesa", "completed", ⟨0, none⟩⟩

/-- C3 counterexample: principal 2 is a sponsor, yet listing payments
filtered by `child_id = 4` alone succeeds and returns the payment `payTXB`
made by the DIFFERENT sponsor 3, because the child filter only checks that
the caller is some sponsor of the child and then filters by child alone.
This falsifies the claim that no combination of list parameters lets a
sponsor obtain payment records made by a different sponsor. -/
theorem get_payments_child_filter_cross_sponsor_leak :
    (dbMain.users.find? (fun u => u.id == 2)).map (fun u => u.role)
      = some "sponsor"
    ∧ get_payments dbMain 2 none (some 4) 1 10
        = .ok ⟨1, 10, 2, 1, [payTXB, payTXA]⟩
    ∧ payTXB.sponsor_id = 3 ∧ (3 : Nat) ≠ 2 :=
  ⟨rfl, rfl, rfl, by decide⟩

/-- Patch payload a non-admin submits to the user-update endpoint. -/
def patchHack : UserCreate :=
  { first_name := "Hacked", last_name := "L", role := "sponsor",
    is_active := none, username := "u4x", password := "pw", email := none,
    phone_number := none, date_of_birth := none, gender := none,
    background_info := none }

/-- User 4 after the unauthorized update: the supplied fields are
overwritten, the absent ones (including the child columns) keep their
stored values. -/
def hackedUser4 : User :=
  { id := 4, first_name := "Hacked", last_name := "L", role := "sponsor",
    username := "u4x", hashed_password := "bcrypt:pw", email := none,
    phone_number := none, date_of_birth := some 7300,
    gender := some "Male", background_info := none, profile_image := none,
    image_gallery := none, is_active := true }

/-- C4 failing input: principal 2 has role `sponsor` (not admin), yet
`update_user` succeeds and rewrites user 4 — the endpoint performs no
admin check (its `if not user:` guard is dead code), contradicting its own
docstring, which promises `403 FORBIDDEN if the user is not an admin`. -/
theorem update_user_missing_admin_check :
    is_admin (mkUser 2 ("sponsor")) = false
    ∧ update_user dbMain 2 patchHack 4
        = .ok { dbMain with users :=
            [mkUser 1 ("admin"), mkUser 2 ("sponsor"), mkUser 3 ("sponsor"),
             hackedUser4, mkChild 5] }
    ∧ hackedUser4.first_name ≠ (mkChild 4).first_name :=
  ⟨rfl, rfl, by decide⟩

/-- Store for the empty-transaction-id scenario: payment 1 already holds
the transaction id `""`, payment 2 holds `"T2"`. -/
def dbEmptyTxn : DB :=
  { users := [mkUser 1 ("admin"), mkUser 2 ("sponsor"), mkUser 4 ("child")],
    sponsorships := [⟨1, 2, 4, 100, "active"⟩],
    payments := [⟨1, 2, 4, 10, "KSh", "", "Mpesa", "completed", ⟨0, none⟩⟩,
                 ⟨2, 2, 4, 20, "KSh", "T2", "Mpesa", "completed", ⟨0, none⟩⟩],
    reports := [] }

/-- Patch setting only the transaction id, to the empty string. -/
def patchEmptyTxn : PaymentUpdate :=
  { amount := none, currency := none, transaction_id := some "",
    payment_method := none, status := none, payment_date := none }

/-- C6 counterexample: admin 1 updates payment 2's transaction id to `""`
while the DIFFERENT payment 1 already holds `""`. The claim requires the
Conflict ("Transaction ID already exists", 400); the code skips its
duplicate check because `""` is falsy in `if payment_data.transaction_id:`
and instead crashes into the commit-time UNIQUE constraint, an unhandled
500 — not the Conflict. -/
theorem update_payment_empty_txn_skips_uniqueness :
    (dbEmptyTxn.payments.find? (fun p => p.transaction_id == "" && p.id != 2)).isSome
      = true
    ∧ update_payment dbEmptyTxn 1 patchEmptyTxn 2
        = .error ⟨500, "IntegrityError: UNIQUE constraint failed: payments.transaction_id"⟩
    ∧ update_payment dbEmptyTxn 1 patchEmptyTxn 2
        ≠ .error ⟨400, "Transaction ID already exists"⟩ :=
  ⟨rfl, rfl, by
    intro hcontra
    have h2 := Except.error.inj
      ((rfl : update_payment dbEmptyTxn 1 patchEmptyTxn 2
        = Except.error ⟨500, "IntegrityError: UNIQUE constraint failed: payments.transaction_id"⟩).symm.trans
        hcontra)
    exact absurd h2 (by decide)⟩

/-- C7 counterexample: sponsor 3 is linked to child 4 by sponsorship row 2,
but `get_child_details` fetches only the FIRST sponsorship row of the
child (whose sponsor is 2) and therefore denies sponsor 3 with 403,
falsifying the claim that every linked sponsor may read the view. -/
theorem get_child_details_second_sponsor_denied :
    dbMain.sponsorships.find? (fun s => s.sponsor_id == 3 && s.child_id == 4)
      = some ⟨2, 3, 4, 100, "active"⟩
    ∧ (dbMain.users.find? (fun u => u.id == 3)).map (fun u => u.role)
        = some "sponsor"
    ∧ get_child_details dbMain 3 4 = .error ⟨403, "Access denied"⟩ :=
  ⟨rfl, rfl, rfl⟩

/-- C8 counterexample: user 3 has role `sponsor`, not `child`, yet an
admin creating a sponsorship with `child_id = 3` succeeds — the child
reference is checked for existence only, with no role filter — instead of
failing with `NotFound` (`Child not found`) as the claim requires. -/
theorem create_sponsorship_accepts_non_child_role :
    (dbMain.users.find? (fun u => u.id == 3)).map (fun u => u.role)
      = some "sponsor"
    ∧ create_sponsorship dbMain 1 ⟨2, 3, 200, "active"⟩
        = .ok ({ dbMain with sponsorships :=
                  dbMain.sponsorships ++ [⟨4, 2, 3, 200, "active"⟩] },
               ⟨4, 2, 3, 200, "active"⟩) :=
  ⟨rfl, rfl⟩

/-- C2: under an authorized principal (admin or the sponsor itself) and
existing sponsor-role and child-role users, creating a payment fails with
the 400 "create sponsorship first" error whenever no sponsorship row with
status `"active"` links the sponsor and the child, and succeeds — the
payment is appended to the store — when such a row exists and the
transaction id is fresh. -/
theorem create_payment_active_sponsorship_gate
    (db : DB) (uid : Nat) (d : PaymentCreate) (now : PyDateTime) (user : User)
    (hu : db.users.find? (fun u => u.id == uid) = some user)
    (hauth : is_admin user = true ∨ user.id = d.sponsor_id)
    (hs : (db.users.find? (fun u =>
      u.id == d.sponsor_id && u.role == "sponsor")).isSome = true)
    (hc : (db.users.find? (fun u =>
      u.id == d.child_id && u.role == "child")).isSome = true) :
    ((∀ s ∈ db.sponsorships,
        ¬(s.sponsor_id = d.sponsor_id ∧ s.child_id = d.child_id
          ∧ s.status = "active")) →
      create_payment db uid d now
        = .error ⟨400, "No active sponsorship found between the sponsor and child. Create sponsorship first."⟩)
    ∧ ((∃ s ∈ db.sponsorships,
          s.sponsor_id = d.sponsor_id ∧ s.child_id = d.child_id
          ∧ s.status = "active") →
       (∀ p ∈ db.payments, p.transaction_id ≠ d.transaction_id) →
       ∃ db2 pay, create_payment db uid d now = .ok (db2, pay)
         ∧ db2.payments = db.payments ++ [pay]
         ∧ pay.sponsor_id = d.sponsor_id ∧ pay.child_id = d.child_id
         ∧ pay.transaction_id = d.transaction_id) := by
  obtain ⟨sp, hsp⟩ := Option.isSome_iff_exists.mp hs
  obtain ⟨ch, hch⟩ := Option.isSome_iff_exists.mp hc
  have hguard : ¬(¬ is_admin user ∧ user.id ≠ d.sponsor_id) := by
    rcases hauth with h | h <;> simp [h]
  constructor
  · intro hno
    have hfind : db.sponsorships.find? (fun s =>
        s.sponsor_id == d.sponsor_id && s.child_id == d.child_id &&
        s.status == "active") = none := by
      rw [List.find?_eq_none]
      intro s hsm
      have := hno s hsm
      simp only [Bool.and_eq_true, beq_iff_eq]
      tauto
    simp only [create_payment, get_user_or_404, hu, hsp, hch, hfind]
    rw [if_neg hguard]
  · intro hex hfresh
    have hfind : (db.sponsorships.find? (fun s =>
        s.sponsor_id == d.sponsor_id && s.child_id == d.child_id &&
        s.status == "active")).isSome = true := by
      rw [List.find?_isSome]
      obtain ⟨s, hsm, h1, h2, h3⟩ := hex
      exact ⟨s, hsm, by simp [h1, h2, h3]⟩
    obtain ⟨sact, hsact⟩ := Option.isSome_iff_exists.mp hfind
    have hpay : db.payments.find? (fun p =>
        p.transaction_id == d.transaction_id) = none := by
      rw [List.find?_eq_none]
      intro p hp
      simp only [beq_iff_eq]
      exact hfresh p hp
    refine ⟨{ db with payments := db.payments ++ [new_payment_of db d now] },
      new_payment_of db d now, ?_, rfl, rfl, rfl, rfl⟩
    simp only [create_payment, get_user_or_404, hu, hsp, hch, hsact, hpay]
    rw [if_neg hguard]

/-- Witness for C2: sponsor 3 creating a payment for child 5 (no active
sponsorship links them in the sample store) fails with the
"create sponsorship first" error. -/
theorem create_payment_active_sponsorship_gate_witness :
    create_payment dbMain 3 ⟨3, 5, 70, "KSh", "TXN", "Mpesa", "completed", none⟩ ⟨5, none⟩
      = .error ⟨400, "No active sponsorship found between the sponsor and child. Create sponsorship first."⟩ :=
  (create_payment_active_sponsorship_gate dbMain 3
    ⟨3, 5, 70, "KSh", "TXN", "Mpesa", "completed", none⟩ ⟨5, none⟩
    (mkUser 3 ("sponsor")) rfl (Or.inr rfl) (by decide) (by decide)).1
    (by decide)

/-- C5: for every existing sponsorship row linking the pair — the row's
status is unconstrained, so active or canceled alike — an admin's attempt
to create a second sponsorship for the same (sponsor, child) pair fails
with the 400 duplicate error; the error return carries no store, so no
row is persisted. -/
theorem create_sponsorship_duplicate_rejected
    (db : DB) (uid : Nat) (d : SponsorshipBase) (user : User)
    (s0 : Sponsorship)
    (hu : db.users.find? (fun u => u.id == uid) = some user)
    (hadm : is_admin user = true)
    (hch : (db.users.find? (fun u => u.id == d.child_id)).isSome = true)
    (hsp : (db.users.find? (fun u =>
      u.id == d.sponsor_id && u.role == "sponsor")).isSome = true)
    (hdup : s0 ∈ db.sponsorships) (h1 : s0.sponsor_id = d.sponsor_id)
    (h2 : s0.child_id = d.child_id) :
    create_sponsorship db uid d
      = .error ⟨400, "Child already sponsored by this sponsor"⟩ := by
  obtain ⟨ch, hchv⟩ := Option.isSome_iff_exists.mp hch
  obtain ⟨sp, hspv⟩ := Option.isSome_iff_exists.mp hsp
  have hfind : (db.sponsorships.find? (fun s =>
      s.child_id == d.child_id && s.sponsor_id == d.sponsor_id)).isSome
      = true := by
    rw [List.find?_isSome]
    exact ⟨s0, hdup, by simp [h1, h2]⟩
  obtain ⟨dup, hdupv⟩ := Option.isSome_iff_exists.mp hfind
  simp [create_sponsorship, get_user_or_404, hu, hadm, hchv, hspv, hdupv]

/-- Witness for C5: in the sample store sponsor 2 already has a CANCELED
sponsorship of child 5 (row 3), and the admin's attempt to create a new
(2, 5) sponsorship fails with the duplicate error regardless. -/
theorem create_sponsorship_duplicate_rejected_witness :
    create_sponsorship dbMain 1 ⟨2, 5, 200, "active"⟩
      = .error ⟨400, "Child already sponsored by this sponsor"⟩ :=
  create_sponsorship_duplicate_rejected dbMain 1 ⟨2, 5, 200, "active"⟩
    (mkUser 1 ("admin")) ⟨3, 2, 5, 100, "canceled"⟩ rfl rfl (by decide)
    (by decide) (by decide) rfl rfl

/-- C8 amended: when an admin creates a sponsorship, the sponsor reference
must resolve to a sponsor-role user (else 404 "Sponsor not found"), but
the child reference is only checked for existence — any existing user of
any role is accepted as `child_id` (else 404 "Child not found" when the
id resolves to no user at all). -/
theorem create_sponsorship_reference_checks
    (db : DB) (uid : Nat) (d : SponsorshipBase) (user : User)
    (hu : db.users.find? (fun u => u.id == uid) = some user)
    (hadm : is_admin user = true) :
    (db.users.find? (fun u => u.id == d.child_id) = none →
      create_sponsorship db uid d = .error ⟨404, "Child not found"⟩)
    ∧ (∀ child, db.users.find? (fun u => u.id == d.child_id) = some child →
       (∀ u ∈ db.users, ¬(u.id = d.sponsor_id ∧ u.role = "sponsor")) →
        create_sponsorship db uid d = .error ⟨404, "Sponsor not found"⟩)
    ∧ (∀ child, db.users.find? (fun u => u.id == d.child_id) = some child →
       (db.users.find? (fun u =>
         u.id == d.sponsor_id && u.role == "sponsor")).isSome = true →
       (∀ s ∈ db.sponsorships,
         ¬(s.child_id = d.child_id ∧ s.sponsor_id = d.sponsor_id)) →
       create_sponsorship db uid d
         = .ok ({ db with sponsorships := db.sponsorships ++
                   [⟨nextId (db.sponsorships.map (fun s => s.id)),
                     d.sponsor_id, d.child_id, d.start_date, d.status⟩] },
                ⟨nextId (db.sponsorships.map (fun s => s.id)),
                  d.sponsor_id, d.child_id, d.start_date, d.status⟩)) := by
  refine ⟨?_, ?_, ?_⟩
  · intro hnone
    simp [create_sponsorship, get_user_or_404, hu, hadm, hnone]
  · intro child hchild hnosp
    have hfind : db.users.find? (fun u =>
        u.id == d.sponsor_id && u.role == "sponsor") = none := by
      rw [List.find?_eq_none]
      intro u hum
      have := hnosp u hum
      simp only [Bool.and_eq_true, beq_iff_eq]
      tauto
    simp [create_sponsorship, get_user_or_404, hu, hadm, hchild, hfind]
  · intro child hchild hsp hnodup
    obtain ⟨sp, hspv⟩ := Option.isSome_iff_exists.mp hsp
    have hfind : db.sponsorships.find? (fun s =>
        s.child_id == d.child_id && s.sponsor_id == d.sponsor_id) = none := by
      rw [List.find?_eq_none]
      intro s hsm
      have := hnodup s hsm
      simp only [Bool.and_eq_true, beq_iff_eq]
      tauto
    simp [create_sponsorship, get_user_or_404, hu, hadm, hchild, hspv, hfind]

/-- Witness for C8 at a missing sponsor reference: admin 1 creating a
sponsorship whose sponsor id 99 resolves to no sponsor-role user fails
with the role-labelled 404. -/
theorem create_sponsorship_reference_checks_witness :
    create_sponsorship dbMain 1 ⟨99, 4, 200, "active"⟩
      = .error ⟨404, "Sponsor not found"⟩ :=
  (create_sponsorship_reference_checks dbMain 1 ⟨99, 4, 200, "active"⟩
    (mkUser 1 ("admin")) rfl rfl).2.1 (mkChild 4) (by decide)
    (by decide)

/-- C7 amended: for a child whose `date_of_birth` and `gender` columns
are populated, the detail view is readable by every admin, and — among
sponsors — exactly by the sponsor named in the FIRST sponsorship row of
that child (the row `find?` returns); any other principal, including a
sponsor linked to the child only by a later row, is denied with 403. (A
child row with a NULL value in either column instead crashes every
caller's request after authorization — the unhandled 500 in the
definition.) -/
theorem get_child_details_first_row_policy
    (db : DB) (uid cid : Nat) (user child : User)
    (hu : db.users.find? (fun u => u.id == uid) = some user)
    (hc : db.users.find? (fun u =>
      u.id == cid && u.role == "child") = some child)
    (hdob : child.date_of_birth.isSome = true)
    (hgen : child.gender.isSome = true) :
    (is_admin user = true → isOk (get_child_details db uid cid) = true)
    ∧ (is_admin user = false →
        (isOk (get_child_details db uid cid) = true
          ↔ ∃ s0, db.sponsorships.find? (fun s => s.child_id == cid) = some s0
              ∧ s0.sponsor_id = user.id)) := by
  obtain ⟨dob, hdobv⟩ := Option.isSome_iff_exists.mp hdob
  obtain ⟨gen, hgenv⟩ := Option.isSome_iff_exists.mp hgen
  constructor
  · intro hadm
    simp [get_child_details, get_user_or_404, hu, hc, hadm, hdobv, hgenv,
          isOk]
  · intro hnadm
    cases hfind : db.sponsorships.find? (fun s => s.child_id == cid) with
    | none =>
      simp [get_child_details, get_user_or_404, hu, hc, hnadm, hfind, isOk]
    | some s0 =>
      by_cases hsid : s0.sponsor_id = user.id
      · simp [get_child_details, get_user_or_404, hu, hc, hnadm, hfind,
              isOk, hsid, hdobv, hgenv]
      · simp [get_child_details, get_user_or_404, hu, hc, hnadm, hfind,
              isOk, hsid]

/-- Witness for C7: sponsor 2, named in the first sponsorship row of
child 4 (whose child columns are populated), is permitted to read the
detail view. -/
theorem get_child_details_first_row_policy_witness :
    isOk (get_child_details dbMain 2 4) = true :=
  ((get_child_details_first_row_policy dbMain 2 4 (mkUser 2 ("sponsor"))
    (mkChild 4) rfl rfl rfl rfl).2 rfl).mpr
    ⟨⟨1, 2, 4, 100, "active"⟩, rfl, rfl⟩

/-- C3 amended: a sponsor principal requesting payments filtered by a
`sponsor_id` other than their own fails with 403 Forbidden, and requesting
their own (when the page is non-empty) succeeds — but this scoping only
covers the `sponsor_id` filter: filtering by `child_id` alone returns the
child's payments from ALL sponsors (see the counterexample). -/
theorem get_payments_sponsor_scope
    (db : DB) (uid sid : Nat) (page page_size : Nat) (user : User)
    (hu : db.users.find? (fun u => u.id == uid) = some user)
    (hrole : user.role = "sponsor")
    (hsid : sid ≠ 0)
    (hs : (db.users.find? (fun u =>
      u.id == sid && u.role == "sponsor")).isSome = true) :
    (user.id ≠ sid →
      get_payments db uid (some sid) none page page_size
        = .error ⟨403, "You do not have permission to access this resource."⟩)
    ∧ (user.id = sid →
        (paginate_query (db.payments.filter (fun p => p.sponsor_id == sid))
          page page_size).results ≠ [] →
        get_payments db uid (some sid) none page page_size
          = .ok ⟨page, page_size,
              (paginate_query (db.payments.filter
                (fun p => p.sponsor_id == sid)) page page_size).total_count,
              (paginate_query (db.payments.filter
                (fun p => p.sponsor_id == sid)) page page_size).total_pages,
              (paginate_query (db.payments.filter
                (fun p => p.sponsor_id == sid)) page page_size).results⟩) := by
  have hnadm : is_admin user = false := by
    simp [is_admin, hrole]
  obtain ⟨sp, hsp⟩ := Option.isSome_iff_exists.mp hs
  constructor
  · intro hne
    simp [get_payments, get_user_or_404, hu, hsp, truthyNat, hsid, hnadm, hne]
  · intro heq hne
    cases hres : (paginate_query (db.payments.filter
        (fun p => p.sponsor_id == sid)) page page_size).results with
    | nil => exact absurd hres hne
    | cons a l =>
      simp [get_payments, get_user_or_404, hu, hsp, truthyNat, hsid, hnadm,
            heq, hres]

/-- Witness for C3: sponsor 2 requesting their own payments succeeds with
their single payment. -/
theorem get_payments_sponsor_scope_witness :
    get_payments dbMain 2 (some 2) none 1 10 = .ok ⟨1, 10, 1, 1, [payTXA]⟩ :=
  (get_payments_sponsor_scope dbMain 2 2 1 10 (mkUser 2 ("sponsor")) rfl rfl
    (by decide) (by decide)).2 rfl (by decide)

/-- Setting a supplied transaction id through the patch loop. -/
lemma apply_payment_update_txn (p : Payment) (d : PaymentUpdate) (t : String)
    (ht : d.transaction_id = some t) :
    (apply_payment_update p d).transaction_id = t := by
  rcases d with ⟨a, c, tt, m, s, dt⟩
  rcases ht with rfl
  unfold apply_payment_update
  cases a <;> cases c <;> cases m <;> cases s <;> cases dt <;> simp

/-- C6 amended: creating a payment whose transaction id matches an
existing row fails with the 400 duplicate error; updating a payment's
transaction id to a NON-EMPTY value fails with the duplicate error exactly
when a different row (self excluded) holds that value, and succeeds
otherwise — in particular updating to the payment's own current value
succeeds. For the empty string the application check is skipped entirely
(Python truthiness) and a colliding update surfaces as an unhandled
commit-time integrity error instead of the Conflict (see the
counterexample). -/
theorem transaction_id_uniqueness_checks
    (db : DB) (uid : Nat) (user : User)
    (hu : db.users.find? (fun u => u.id == uid) = some user)
    (hadm : is_admin user = true) :
    (∀ (d : PaymentCreate) (now : PyDateTime),
      (db.users.find? (fun u =>
        u.id == d.sponsor_id && u.role == "sponsor")).isSome = true →
      (db.users.find? (fun u =>
        u.id == d.child_id && u.role == "child")).isSome = true →
      (db.sponsorships.find? (fun s =>
        s.sponsor_id == d.sponsor_id && s.child_id == d.child_id &&
        s.status == "active")).isSome = true →
      (∃ p ∈ db.payments, p.transaction_id = d.transaction_id) →
      create_payment db uid d now
        = .error ⟨400, "Transaction ID already exists"⟩)
    ∧ (∀ (pd : PaymentUpdate) (pid : Nat) (t : String) (p0 : Payment),
        db.payments.find? (fun p => p.id == pid) = some p0 →
        pd.transaction_id = some t → t ≠ "" →
        ((∃ p ∈ db.payments, p.transaction_id = t ∧ p.id ≠ pid) →
          update_payment db uid pd pid
            = .error ⟨400, "Transaction ID already exists"⟩)
        ∧ ((∀ p ∈ db.payments, p.transaction_id = t → p.id = pid) →
            update_payment db uid pd pid
              = .ok ({ db with payments := db.payments.map (fun p =>
                        if p.id == pid then apply_payment_update p0 pd
                        else p) },
                     apply_payment_update p0 pd))) := by
  constructor
  · intro d now hs hc hsp hex
    obtain ⟨sp, hspv⟩ := Option.isSome_iff_exists.mp hs
    obtain ⟨ch, hchv⟩ := Option.isSome_iff_exists.mp hc
    obtain ⟨sa, hsav⟩ := Option.isSome_iff_exists.mp hsp
    have hfind : (db.payments.find? (fun p =>
        p.transaction_id == d.transaction_id)).isSome = true := by
      rw [List.find?_isSome]
      obtain ⟨p, hp, hpt⟩ := hex
      exact ⟨p, hp, by simp [hpt]⟩
    obtain ⟨q, hq⟩ := Option.isSome_iff_exists.mp hfind
    simp [create_payment, get_user_or_404, hu, hadm, hspv, hchv, hsav, hq]
  · intro pd pid t p0 hp0 ht hne
    constructor
    · intro hex
      have hfind : (db.payments.find? (fun p =>
          p.transaction_id == t && p.id != pid)).isSome = true := by
        rw [List.find?_isSome]
        obtain ⟨p, hp, h1, h2⟩ := hex
        exact ⟨p, hp, by simp [h1, h2]⟩
      obtain ⟨q, hq⟩ := Option.isSome_iff_exists.mp hfind
      simp [update_payment, get_user_or_404, hu, hadm, hp0, ht, truthyStr,
            hne, hq]
    · intro hall
      have hfind : db.payments.find? (fun p =>
          p.transaction_id == t && p.id != pid) = none := by
        rw [List.find?_eq_none]
        intro p hp
        simp only [Bool.and_eq_true, beq_iff_eq, bne_iff_ne, ne_eq]
        rintro ⟨h1, h2⟩
        exact h2 (hall p hp h1)
      have hupdt : (apply_payment_update p0 pd).transaction_id = t :=
        apply_payment_update_txn p0 pd t ht
      have hany : db.payments.any (fun p =>
          p.id != pid && p.transaction_id == t) = false := by
        rw [List.any_eq_false]
        intro p hp
        simp only [Bool.and_eq_true, beq_iff_eq, bne_iff_ne, ne_eq]
        rintro ⟨h1, h2⟩
        exact h1 (hall p hp h2)
      simp [update_payment, get_user_or_404, hu, hadm, hp0, ht, truthyStr,
            hne, hfind, hupdt, hany]

/-- Witness for C6: admin 1 updating payment 1's transaction id to
`"TXA"`, which the different payment 2 already holds, fails with the
duplicate error. -/
theorem transaction_id_uniqueness_checks_witness :
    update_payment dbMain 1
      ⟨none, none, some "TXA", none, none, none⟩ 1
      = .error ⟨400, "Transaction ID already exists"⟩ :=
  ((transaction_id_uniqueness_checks dbMain 1 (mkUser 1 ("admin")) rfl
    rfl).2 ⟨none, none, some "TXA", none, none, none⟩ 1 "TXA" payTXB rfl rfl
    (by decide)).1 ⟨payTXA, by decide, rfl, by decide⟩

/-- Field-level frame of the payment patch application: identity and
relationship fields are untouched, and every absent patch field keeps its
prior value. -/
lemma apply_payment_update_frame (p : Payment) (d : PaymentUpdate) :
    (apply_payment_update p d).id = p.id
    ∧ (apply_payment_update p d).sponsor_id = p.sponsor_id
    ∧ (apply_payment_update p d).child_id = p.child_id
    ∧ (d.amount = none → (apply_payment_update p d).amount = p.amount)
    ∧ (d.currency = none → (apply_payment_update p d).currency = p.currency)
    ∧ (d.transaction_id = none →
        (apply_payment_update p d).transaction_id = p.transaction_id)
    ∧ (d.payment_method = none →
        (apply_payment_update p d).payment_method = p.payment_method)
    ∧ (d.status = none → (apply_payment_update p d).status = p.status)
    ∧ (d.payment_date = none →
        (apply_payment_update p d).payment_date = p.payment_date) := by
  rcases d with ⟨a, c, t, m, s, dt⟩
  unfold apply_payment_update
  cases a <;> cases c <;> cases t <;> cases m <;> cases s <;> cases dt <;>
    simp

/-- Field-level frame of the report patch application. -/
lemma apply_report_update_frame (r : ChildReport) (d : ChildReportUpdate) :
    (apply_report_update r d).id = r.id
    ∧ (apply_report_update r d).child_id = r.child_id
    ∧ (d.report_date = none →
        (apply_report_update r d).report_date = r.report_date)
    ∧ (d.report_type = none →
        (apply_report_update r d).report_type = r.report_type)
    ∧ (d.details = none → (apply_report_update r d).details = r.details)
    ∧ (d.status = none → (apply_report_update r d).status = r.status) := by
  rcases d with ⟨dd, ty, de, st⟩
  unfold apply_report_update
  cases dd <;> cases ty <;> cases de <;> cases st <;> simp

/-- C9: successful partial updates (payment update, child-report update)
modify only the supplied (non-null) patch fields of the stored entity;
absent fields keep their prior values, the identity and relationship
fields (`id`, `sponsor_id`, `child_id`) are never changed, and the other
tables are untouched. -/
theorem partial_update_frame (db : DB) (uid : Nat) :
    (∀ (pd : PaymentUpdate) (pid : Nat) (db2 : DB) (p2 p0 : Payment),
      db.payments.find? (fun p => p.id == pid) = some p0 →
      update_payment db uid pd pid = .ok (db2, p2) →
      p2.id = p0.id ∧ p2.sponsor_id = p0.sponsor_id
      ∧ p2.child_id = p0.child_id
      ∧ (pd.amount = none → p2.amount = p0.amount)
      ∧ (pd.currency = none → p2.currency = p0.currency)
      ∧ (pd.transaction_id = none → p2.transaction_id = p0.transaction_id)
      ∧ (pd.payment_method = none → p2.payment_method = p0.payment_method)
      ∧ (pd.status = none → p2.status = p0.status)
      ∧ (pd.payment_date = none → p2.payment_date = p0.payment_date)
      ∧ db2.users = db.users ∧ db2.sponsorships = db.sponsorships
      ∧ db2.reports = db.reports)
    ∧ (∀ (rd : ChildReportUpdate) (rid : Nat) (db2 : DB)
        (r2 r0 : ChildReport),
      db.reports.find? (fun r => r.id == rid) = some r0 →
      update_child_report db uid (some rd) rid = .ok (db2, r2) →
      r2.id = r0.id ∧ r2.child_id = r0.child_id
      ∧ (rd.report_date = none → r2.report_date = r0.report_date)
      ∧ (rd.report_type = none → r2.report_type = r0.report_type)
      ∧ (rd.details = none → r2.details = r0.details)
      ∧ (rd.status = none → r2.status = r0.status)
      ∧ db2.users = db.users ∧ db2.sponsorships = db.sponsorships
      ∧ db2.payments = db.payments) := by
  constructor
  · intro pd pid db2 p2 p0 hfind h
    cases hu : db.users.find? (fun u => u.id == uid) with
    | none =>
      simp only [update_payment, get_user_or_404, hu] at h
      exact Except.noConfusion h
    | some user =>
      by_cases hadm : is_admin user = true
      · by_cases hdup : truthyStr pd.transaction_id ∧
            (db.payments.find? (fun p =>
              p.transaction_id == (pd.transaction_id.getD p.transaction_id)
              && p.id != pid)).isSome
        · simp only [update_payment, get_user_or_404, hu, hfind] at h
          rw [if_neg (by simp [hadm]), if_pos hdup] at h
          exact Except.noConfusion h
        · simp only [update_payment, get_user_or_404, hu, hfind] at h
          rw [if_neg (by simp [hadm]), if_neg hdup] at h
          by_cases hcommit : db.payments.any (fun p =>
              p.id != pid && p.transaction_id ==
                (apply_payment_update p0 pd).transaction_id) = true
          · rw [if_pos hcommit] at h
            exact Except.noConfusion h
          · rw [if_neg hcommit] at h
            simp only [Except.ok.injEq, Prod.mk.injEq] at h
            obtain ⟨hdb, hp⟩ := h
            subst hdb
            subst hp
            obtain ⟨f1, f2, f3, f4, f5, f6, f7, f8, f9⟩ :=
              apply_payment_update_frame p0 pd
            exact ⟨f1, f2, f3, f4, f5, f6, f7, f8, f9, rfl, rfl, rfl⟩
      · simp only [update_payment, get_user_or_404, hu] at h
        rw [if_pos (by simpa using hadm)] at h
        exact Except.noConfusion h
  · intro rd rid db2 r2 r0 hfind h
    cases hu : db.users.find? (fun u => u.id == uid) with
    | none =>
      simp only [update_child_report, get_user_or_404, hu] at h
      exact Except.noConfusion h
    | some user =>
      by_cases hadm : is_admin user = true
      · simp only [update_child_report, get_user_or_404, hu, hfind] at h
        rw [if_neg (by simp [hadm])] at h
        simp only [Except.ok.injEq, Prod.mk.injEq] at h
        obtain ⟨hdb, hr⟩ := h
        subst hdb
        subst hr
        obtain ⟨f1, f2, f3, f4, f5, f6⟩ := apply_report_update_frame r0 rd
        exact ⟨f1, f2, f3, f4, f5, f6, rfl, rfl, rfl⟩
      · simp only [update_child_report, get_user_or_404, hu] at h
        rw [if_pos (by simpa using hadm)] at h
        exact Except.noConfusion h

/-- Patch for the C9 witness: only the amount is supplied. -/
def pdW : PaymentUpdate := ⟨some 99, none, none, none, none, none⟩

/-- Payment 1 after the C9 witness update. -/
def pW : Payment :=
  ⟨1, 3, 4, 99, "KSh", "TXB", "Mpesa", "completed", ⟨0, none⟩⟩

/-- Store after the C9 witness update. -/
def dbW : DB := { dbMain with payments := [pW, payTXA] }

/-- Witness for C9: admin 1 updates only the amount of payment 1; every
other field keeps its prior value and the other tables are untouched. -/
theorem partial_update_frame_witness :
    pW.id = payTXB.id ∧ pW.sponsor_id = payTXB.sponsor_id
    ∧ pW.child_id = payTXB.child_id
    ∧ (pdW.amount = none → pW.amount = payTXB.amount)
    ∧ (pdW.currency = none → pW.currency = payTXB.currency)
    ∧ (pdW.transaction_id = none → pW.transaction_id = payTXB.transaction_id)
    ∧ (pdW.payment_method = none → pW.payment_method = payTXB.payment_method)
    ∧ (pdW.status = none → pW.status = payTXB.status)
    ∧ (pdW.payment_date = none → pW.payment_date = payTXB.payment_date)
    ∧ dbW.users = dbMain.users ∧ dbW.sponsorships = dbMain.sponsorships
    ∧ dbW.reports = dbMain.reports :=
  (partial_update_frame dbMain 1).1 pdW 1 dbW pW payTXB rfl rfl

/-- Replacing the matching rows of a list relocates `find?` onto the
replacement, provided the replacement still matches. -/
lemma find?_replace (l : List α) (p : α → Bool) (a b : α)
    (hfind : l.find? p = some a) (hb : p b = true) :
    (l.map (fun x => if p x then b else x)).find? p = some b := by
  induction l with
  | nil => simp at hfind
  | cons x xs ih =>
    by_cases hx : p x = true
    · simp [hx, hb]
    · rw [List.find?_cons_of_neg _ hx] at hfind
      simp only [List.map_cons, if_neg hx]
      rw [List.find?_cons_of_neg _ hx]
      exact ih hfind

/-- Replacing the matching rows twice is the same as replacing them
once. -/
lemma map_replace_idem (l : List α) (p : α → Bool) (b : α)
    (hb : p b = true) :
    ((l.map (fun x => if p x then b else x)).map
      (fun x => if p x then b else x))
      = l.map (fun x => if p x then b else x) := by
  induction l with
  | nil => rfl
  | cons x xs ih =>
    by_cases hx : p x = true
    · simp [hx, hb, ih]
    · simp [hx, ih]

/-- C10: a successful mark-read sets the report status to `"read"` and
changes nothing else of the report (the result is the found report with
only its status replaced), and the operation is idempotent: running it
again on the resulting store returns the same store and report. -/
theorem mark_report_as_read_idempotent
    (db : DB) (rid uid : Nat) (db2 : DB) (r2 : ChildReport)
    (h : mark_report_as_read db rid uid = .ok (db2, r2)) :
    r2.status = "read"
    ∧ (∃ r0, db.reports.find? (fun r => r.id == rid) = some r0
        ∧ r2 = { r0 with status := "read" })
    ∧ mark_report_as_read db2 rid uid = .ok (db2, r2) := by
  cases hu : db.users.find? (fun u => u.id == uid) with
  | none =>
    simp only [mark_report_as_read, get_user_or_404, hu] at h
    exact Except.noConfusion h
  | some user =>
  cases hr : db.reports.find? (fun r => r.id == rid) with
  | none =>
    simp only [mark_report_as_read, get_user_or_404, hu, hr] at h
    exact Except.noConfusion h
  | some r0 =>
  cases hc : db.users.find? (fun u =>
      u.id == r0.child_id && u.role == "child") with
  | none =>
    simp only [mark_report_as_read, get_user_or_404, hu, hr, hc] at h
    exact Except.noConfusion h
  | some child =>
    by_cases hperm : ¬ is_admin user ∧
        user.id ∉ ((db.sponsorships.filter
          (fun s => s.child_id == child.id)).map (fun s => s.sponsor_id))
    · simp only [mark_report_as_read, get_user_or_404, sponsorships_as_child,
                 hu, hr, hc] at h
      rw [if_pos hperm] at h
      exact Except.noConfusion h
    · simp only [mark_report_as_read, get_user_or_404, sponsorships_as_child,
                 hu, hr, hc] at h
      rw [if_neg hperm] at h
      simp only [Except.ok.injEq, Prod.mk.injEq] at h
      obtain ⟨hdb, hrr⟩ := h
      subst hdb
      subst hrr
      have hpid := List.find?_some hr
      have hupd : (({ r0 with status := "read" } : ChildReport).id == rid)
          = true := hpid
      refine ⟨rfl, ⟨r0, rfl, rfl⟩, ?_⟩
      have hfr := find?_replace db.reports (fun r => r.id == rid) r0
        { r0 with status := "read" } hr hupd
      simp only [mark_report_as_read, get_user_or_404, sponsorships_as_child,
                 hu, hc, hfr]
      rw [if_neg hperm]
      rw [map_replace_idem db.reports (fun r => r.id == rid)
        { r0 with status := "read" } hupd]

/-- Report 1 after being marked read. -/
def repRead : ChildReport := ⟨1, 4, 10, "Academic", "good progress", "read"⟩

/-- Store after marking report 1 read. -/
def dbRead : DB := { dbMain with reports := [repRead] }

/-- Witness for C10: sponsor 2 (linked to child 4) marks report 1 read;
the status becomes `"read"` and a second application returns the same
store and report. -/
theorem mark_report_as_read_idempotent_witness :
    repRead.status = "read"
    ∧ mark_report_as_read dbRead 1 2 = .ok (dbRead, repRead) :=
  ⟨(mark_report_as_read_idempotent dbMain 1 2 dbRead repRead rfl).1,
   (mark_report_as_read_idempotent dbMain 1 2 dbRead repRead rfl).2.2⟩

end SponsorsApp
